import Mathlib

/-!
# Canto-Beats subtitle pipeline — verification of exporter and cascade excerpts

Shallow embedding of the subtitle exporter (`subtitle_exporter.py`), the
translation-cascade acceptance excerpts (`style_processor.py`), and the ASR
prompt construction (`subtitle_pipeline_v2.py` / `transcription_worker.py`).
Python floats are modelled as rationals, Python `int()` as truncation toward
zero, Python dicts as association lists with most-recent binding first, and
raised-then-caught I/O exceptions as `Except` values.
-/

unseal Rat.add Rat.mul Rat.sub Rat.inv

namespace CantoBeats

/-- Python `int(x)`: truncation toward zero. -/
def pyInt (q : ℚ) : ℤ := if 0 ≤ q then ⌊q⌋ else -⌊-q⌋

/-- Pad a digit string on the left with zeros up to width `w`. -/
def padZeros (s : String) (w : Nat) : String :=
  if s.length < w then String.mk (List.replicate (w - s.length) '0') ++ s else s

/-- Python `f"{n:0wd}"`: zero-padded decimal, the sign counting toward the width. -/
def pyFmtInt (n : ℤ) (w : Nat) : String :=
  if n < 0 then "-" ++ padZeros (toString n.natAbs) (w - 1)
  else padZeros (toString n.natAbs) w

/-- The millisecond field of `_format_srt_time`:
`millis = int((seconds - int(seconds)) * 1000)`. -/
def srtMillis (seconds : ℚ) : ℤ := pyInt ((seconds - (pyInt seconds : ℚ)) * 1000)

/-- The centisecond field of `_format_ass_time`:
`centisecs = int((seconds - int(seconds)) * 100)`. -/
def assCentis (seconds : ℚ) : ℤ := pyInt ((seconds - (pyInt seconds : ℚ)) * 100)

/-- `SubtitleExporter._format_srt_time` (part_004 lines 228-237).
`timedelta(seconds=s).total_seconds()` is the identity in this rational model;
Python `//` is floor division (`Int.fdiv`) and `%` with a positive divisor is
`Int.emod`. -/
def formatSrtTime (seconds : ℚ) : String :=
  let totalSeconds : ℤ := pyInt seconds
  let hours : ℤ := totalSeconds.fdiv 3600
  let minutes : ℤ := (totalSeconds.emod 3600).fdiv 60
  let secs : ℤ := totalSeconds.emod 60
  pyFmtInt hours 2 ++ ":" ++ pyFmtInt minutes 2 ++ ":" ++ pyFmtInt secs 2
    ++ "," ++ pyFmtInt (srtMillis seconds) 3

/-- `SubtitleExporter._format_ass_time` (part_004 lines 239-248); the hour
field is written unpadded (`f"{hours}"`). -/
def formatAssTime (seconds : ℚ) : String :=
  let totalSeconds : ℤ := pyInt seconds
  let hours : ℤ := totalSeconds.fdiv 3600
  let minutes : ℤ := (totalSeconds.emod 3600).fdiv 60
  let secs : ℤ := totalSeconds.emod 60
  toString hours ++ ":" ++ pyFmtInt minutes 2 ++ ":" ++ pyFmtInt secs 2
    ++ "." ++ pyFmtInt (assCentis seconds) 2

/-! ## Python string primitives

Modelled over the character list `String.data` so that every operation is
structurally recursive and evaluates inside the kernel. -/

/-- Python `str.strip()`: remove leading and trailing whitespace. -/
def pyStrip (s : String) : String :=
  String.mk (((s.data.dropWhile Char.isWhitespace).reverse.dropWhile
    Char.isWhitespace).reverse)

/-- Python `s.startswith(p)`. -/
def pyStartswith (s p : String) : Bool := p.data.isPrefixOf s.data

/-- Python `s[n:]` (slice from character index `n`). -/
def pyDrop (s : String) (n : Nat) : String := String.mk (s.data.drop n)

/-- Python `str.lower()`. -/
def pyLower (s : String) : String := String.mk (s.data.map Char.toLower)

/-- Replace every occurrence of `old` (leftmost-first, non-overlapping) by
`new`; the recursion is fuelled by the list length so it stays structural. -/
def replaceFuel (old new : List Char) : Nat → List Char → List Char
  | _, [] => []
  | 0, l => l
  | fuel + 1, c :: rest =>
      if old.isPrefixOf (c :: rest) then
        new ++ replaceFuel old new fuel (List.drop (old.length - 1) rest)
      else c :: replaceFuel old new fuel rest

/-- Python `s.replace(old, new)` for a non-empty `old`. -/
def pyReplace (s old new : String) : String :=
  String.mk (replaceFuel old.data new.data s.data.length s.data)

/-- A subtitle segment dict `{'start': ..., 'end': ..., 'text': ...}`. -/
structure Segment where
  start : ℚ
  «end» : ℚ
  text : String
  deriving DecidableEq, Repr

/-- `SubtitleExporter.export_srt` file body (part_004 lines 29-43): the
sequence of `f.write` calls, concatenated in order.  `enumerate(segments, 1)`
is `List.enumFrom 1`. -/
def exportSrtContent (segments : List Segment) : String :=
  (List.enumFrom 1 segments).foldl
    (fun acc p =>
      acc ++ toString p.1 ++ "\n"
        ++ formatSrtTime p.2.start ++ " --> " ++ formatSrtTime p.2.«end» ++ "\n"
        ++ p.2.text ++ "\n" ++ "\n")
    ""

/-- The fixed `[Script Info]`, `[V4+ Styles]` and `[Events]` header written by
`export_ass` (part_004 lines 65-82), parametrized by the style name. -/
def assHeader (styleName : String) : String :=
  "[Script Info]\n"
    ++ "Title: Canto-beats Export\n"
    ++ "ScriptType: v4.00+\n"
    ++ "Collisions: Normal\n"
    ++ "PlayDepth: 0\n\n"
    ++ "[V4+ Styles]\n"
    ++ "Format: Name, Fontname, Fontsize, PrimaryColour, SecondaryColour, "
    ++ "OutlineColour, BackColour, Bold, Italic, Underline, StrikeOut, "
    ++ "ScaleX, ScaleY, Spacing, Angle, BorderStyle, Outline, Shadow, "
    ++ "Alignment, MarginL, MarginR, MarginV, Encoding\n"
    ++ "Style: " ++ styleName ++ ",Arial,20,&H00FFFFFF,&H000000FF,&H00000000,"
    ++ "&H00000000,0,0,0,0,100,100,0,0,1,2,2,2,10,10,10,1\n\n"
    ++ "[Events]\n"
    ++ "Format: Layer, Start, End, Style, Name, MarginL, MarginR, MarginV, Effect, Text\n"

/-- One `Dialogue:` event line written per segment by `export_ass`
(part_004 lines 84-89); internal newlines become the two-character escape
`\N` via `seg['text'].replace('\n', '\\N')`. -/
def assDialogueLine (styleName : String) (seg : Segment) : String :=
  "Dialogue: 0," ++ formatAssTime seg.start ++ "," ++ formatAssTime seg.«end»
    ++ "," ++ styleName ++ ",,0,0,0,," ++ pyReplace seg.text "\n" "\\N" ++ "\n"

/-- `SubtitleExporter.export_ass` file body (part_004 lines 63-89): the header
writes followed by the per-segment event loop. -/
def exportAssContent (segments : List Segment) (styleName : String) : String :=
  segments.foldl (fun acc seg => acc ++ assDialogueLine styleName seg)
    (assHeader styleName)

/-- Round to nearest with ties to even, on top of `Int.floor`; the rounding
used by Python `format(x, '.2f')`. -/
def roundHalfEven (q : ℚ) : ℤ :=
  let f := ⌊q⌋
  let r := q - (f : ℚ)
  if r < 1/2 then f else if 1/2 < r then f + 1 else if f % 2 = 0 then f else f + 1

/-- Python `f"{x:.2f}"` on the rational model: round-half-even to centiunits,
then two decimal places. -/
def pyFmt2f (x : ℚ) : String :=
  let n := roundHalfEven (x * 100)
  (if n < 0 then "-" else "")
    ++ toString (n.natAbs / 100) ++ "." ++ padZeros (toString (n.natAbs % 100)) 2

/-- `SubtitleExporter.export_txt` file body (part_004 lines 109-117). -/
def exportTxtContent (segments : List Segment) (includeTimestamps : Bool) : String :=
  segments.foldl
    (fun acc seg =>
      if includeTimestamps then
        acc ++ "[" ++ pyFmt2f seg.start ++ "s - " ++ pyFmt2f seg.«end» ++ "s] "
          ++ seg.text ++ "\n"
      else acc ++ seg.text ++ "\n")
    ""

/-- `start_frames = int(seg['start'] * fps)` (part_004 line 188). -/
def titleStartFrames (seg : Segment) (fps : ℚ) : ℤ := pyInt (seg.start * fps)

/-- `duration_frames = max(1, int((seg['end'] - seg['start']) * fps))`
(part_004 line 189). -/
def titleDurationFrames (seg : Segment) (fps : ℚ) : ℤ :=
  max 1 (pyInt ((seg.«end» - seg.start) * fps))

/-- One `title` element of the FCPXML spine (part_004 lines 187-211). -/
structure FcpTitle where
  ref : String
  name : String
  offset : String
  duration : String
  start : String
  textStyleId : String
  text : String
  deriving DecidableEq, Repr

/-- The spine's `title` elements, one per segment, in order
(part_004 lines 187-211). -/
def fcpTitles (segments : List Segment) (fps : ℚ) : List FcpTitle :=
  (List.enumFrom 1 segments).map fun p =>
    { ref := "r2"
      name := "字幕 " ++ toString p.1
      offset := toString (titleStartFrames p.2 fps) ++ "/" ++ toString (pyInt fps) ++ "s"
      duration := toString (titleDurationFrames p.2 fps) ++ "/" ++ toString (pyInt fps) ++ "s"
      start := "3600s"
      textStyleId := "ts" ++ toString p.1
      text := p.2.text }

/-- The FCPXML element tree built by `export_fcpxml` (part_004 lines 137-211):
the fixed resources/library scaffolding plus the per-segment titles.
Serialization to bytes is done by the external `minidom` collaborator. -/
structure FcpDoc where
  version : String
  formatName : String
  frameDuration : String
  width : String
  height : String
  effectName : String
  effectUid : String
  eventName : String
  projectName : String
  sequenceDuration : String
  tcStart : String
  tcFormat : String
  audioLayout : String
  audioRate : String
  titles : List FcpTitle
  deriving DecidableEq, Repr

/-- `export_fcpxml` document construction (part_004 lines 141-211), including
the `video_duration is None` defaulting: `max(seg['end'] ...) + 1.0` for a
non-empty segment list, else `60.0`. -/
def buildFcpxml (segments : List Segment) (videoDuration : Option ℚ) (fps : ℚ) : FcpDoc :=
  let vd : ℚ :=
    match videoDuration, segments with
    | some d, _ => d
    | none, [] => 60
    | none, s :: rest => (rest.foldl (fun m x => max m x.«end») s.«end») + 1
  let totalFrames := pyInt (vd * fps)
  { version := "1.10"
    formatName := "FFVideoFormat1080p30"
    frameDuration := "1/" ++ toString (pyInt fps) ++ "s"
    width := "1920"
    height := "1080"
    effectName := "Basic Title"
    effectUid := ".../Titles.localized/Bumper:Opener.localized/Basic Title.localized/Basic Title.moti"
    eventName := "Canto-beats 字幕匯出"
    projectName := "字幕"
    sequenceDuration := toString totalFrames ++ "/" ++ toString (pyInt fps) ++ "s"
    tcStart := "0s"
    tcFormat := "NDF"
    audioLayout := "stereo"
    audioRate := "48k"
    titles := fcpTitles segments fps }

/-! ## Export entry points with the file write modelled as an `Except` action

Python's `try: open(...).write(...) ; return True / except: return False`
becomes: compute the content purely, attempt the write, match on the result.
`write path content` is the filesystem collaborator; an exception raised while
writing is an `Except.error`. -/

/-- `SubtitleExporter.export_srt` (part_004 lines 18-47). -/
def export_srt (write : String → String → Except String Unit)
    (segments : List Segment) (outputPath : String) : Bool :=
  match write outputPath (exportSrtContent segments) with
  | Except.ok _ => true
  | Except.error _ => false

/-- `SubtitleExporter.export_ass` (part_004 lines 49-94). -/
def export_ass (write : String → String → Except String Unit)
    (segments : List Segment) (outputPath : String) (styleName : String) : Bool :=
  match write outputPath (exportAssContent segments styleName) with
  | Except.ok _ => true
  | Except.error _ => false

/-- `SubtitleExporter.export_txt` (part_004 lines 96-121). -/
def export_txt (write : String → String → Except String Unit)
    (segments : List Segment) (outputPath : String) (includeTimestamps : Bool) : Bool :=
  match write outputPath (exportTxtContent segments includeTimestamps) with
  | Except.ok _ => true
  | Except.error _ => false

/-- `SubtitleExporter.export_fcpxml` (part_004 lines 123-225); `serialize` is
the external `minidom.toprettyxml` collaborator. -/
def export_fcpxml (write : String → String → Except String Unit)
    (serialize : FcpDoc → String) (segments : List Segment) (outputPath : String)
    (videoDuration : Option ℚ) (fps : ℚ) : Bool :=
  match write outputPath (serialize (buildFcpxml segments videoDuration fps)) with
  | Except.ok _ => true
  | Except.error _ => false

/-- One export request of a multi-format export run. -/
inductive ExportReq where
  | srt (path : String)
  | ass (path : String) (styleName : String)
  | txt (path : String) (includeTimestamps : Bool)
  | fcpxml (path : String) (videoDuration : Option ℚ) (fps : ℚ)
  deriving DecidableEq

/-- Dispatch one export request to the corresponding export method. -/
def runExport (write : String → String → Except String Unit)
    (serialize : FcpDoc → String) (segments : List Segment) : ExportReq → Bool
  | ExportReq.srt path => export_srt write segments path
  | ExportReq.ass path styleName => export_ass write segments path styleName
  | ExportReq.txt path includeTimestamps => export_txt write segments path includeTimestamps
  | ExportReq.fcpxml path videoDuration fps =>
      export_fcpxml write serialize segments path videoDuration fps

/-- Modelled from the spec: the multi-format export driver is not among the
repository sources here (only the per-format export methods are); per §7,
`ExportIOError` is "fatal to that format's export; other requested formats are
attempted independently, failure of one format does not block the others", so
the driver attempts every requested format in order regardless of earlier
results. -/
def exportAll (write : String → String → Except String Unit)
    (serialize : FcpDoc → String) (segments : List Segment) :
    List ExportReq → List Bool
  | [] => []
  | r :: rs =>
      runExport write serialize segments r :: exportAll write serialize segments rs

/-! ## Style Transformation Engine: translation-acceptance excerpts

From the `style_processor.py` excerpts (part_016).  The translation cache
`self.translation_cache` (a Python dict) is an association list with the most
recent binding first; `self.s2t_converter` is `Option`-valued (`None` when
OpenCC is unavailable). -/

/-- The prefix-removal loop of the Qwen LLM clean-up (part_016 lines 35-38):
`for prefix in [...]: if result.startswith(prefix): result = result[len(prefix):].strip()`. -/
def stripPrefixes (result : String) : String :=
  ["繁體中文：", "翻譯：", "結果："].foldl
    (fun r p => if pyStartswith r p then pyStrip (pyDrop r p.data.length) else r)
    result

/-- Qwen LLM result acceptance (part_016 lines 31-48): given the raw model
output, clean it up, convert to Traditional when the converter is present,
memoize under `text.lower()` and return; `none` when the stage declines. -/
def qwenAccept (converter : Option (String → String))
    (cache : List (String × String)) (text rawResult : String) :
    List (String × String) × Option String :=
  if rawResult ≠ "" then
    let r1 := stripPrefixes (pyStrip rawResult)
    if r1 ≠ "" ∧ r1 ≠ text then
      let r2 := match converter with
        | some conv => conv r1
        | none => r1
      ((pyLower text, r2) :: cache, some r2)
    else (cache, none)
  else (cache, none)

/-- MarianMT fallback result acceptance (part_016 lines 51-63):
`if result and result.strip() and result != text:` then convert when the
converter is present, memoize under `text.lower()` and return. -/
def mtAccept (converter : Option (String → String))
    (cache : List (String × String)) (text rawResult : String) :
    List (String × String) × Option String :=
  if rawResult ≠ "" ∧ pyStrip rawResult ≠ "" ∧ rawResult ≠ text then
    let r := match converter with
      | some conv => conv rawResult
      | none => rawResult
    ((pyLower text, r) :: cache, some r)
  else (cache, none)

/-- Modelled from the spec: the external OpenCC `s2hk` script normalizer
(`to_traditional_hk`, §6), a third-party collaborator outside this repository;
modelled as a character-wise Simplified→Traditional (Hong Kong) substitution
covering the characters exercised here, the identity elsewhere. -/
def s2hk (s : String) : String :=
  String.mk (s.data.map fun c =>
    if c = '软' then '軟'
    else if c = '体' then '體'
    else if c = '简' then '簡'
    else c)

/-- Modelled from the spec: the English-translation cascade glue (§4.2) —
only the LLM/MT acceptance code appears in the repository excerpts, so the
dictionary outcome and the raw stage outputs are taken as inputs
(`none` = stage absent/disabled/failed); stages run in strict order, first
success wins, and if every stage fails the original text is returned
unmodified. -/
def translateEnglish (converter : Option (String → String))
    (cache : List (String × String)) (text : String)
    (dictResult : Option String) (llmRaw : Option String) (mtRaw : Option String) :
    List (String × String) × String :=
  match dictResult with
  | some d => ((pyLower text, d) :: cache, d)
  | none =>
    let afterLlm := match llmRaw with
      | some raw => qwenAccept converter cache text raw
      | none => (cache, none)
    match afterLlm with
    | (cache1, some r) => (cache1, r)
    | (cache1, none) =>
      match mtRaw with
      | some raw =>
        match mtAccept converter cache1 text raw with
        | (cache2, some r) => (cache2, r)
        | (cache2, none) => (cache2, text)
      | none => (cache1, text)

/-! ## ASR initial prompt construction (part_023 excerpts) -/

/-- The fixed base Cantonese vocabulary hint (part_023 lines 54 and 80). -/
def basePrompt : String :=
  "以下係廣東話對白，請用粵語口語字幕：佢、喺、睇、嘅、咁、啲、咗、嚟、冇、諗、唔、咩、乜、點、邊、噉、嗰、呢、哋、咪、囉、喎、啦、㗎、吖。"

/-- `initial_prompt` construction shared by `SubtitlePipelineV2` (part_023
lines 44-59) and `TranscribeWorker` (part_023 lines 73-88): `None` when the
configured custom vocabulary is empty, otherwise the base prompt followed by
`用戶指定詞彙：`, the custom string, and `。`. -/
def buildInitialPrompt (customPrompt : String) : Option String :=
  if customPrompt ≠ "" then
    some (basePrompt ++ "用戶指定詞彙：" ++ customPrompt ++ "。")
  else none

/-! ## Helper lemmas -/

lemma pyInt_eq_floor (q : ℚ) (h : 0 ≤ q) : pyInt q = ⌊q⌋ := by
  simp [pyInt, h]

lemma foldl_append_hom (l : List String) :
    ∀ a b : String, l.foldl (· ++ ·) (a ++ b) = a ++ l.foldl (· ++ ·) b := by
  induction l with
  | nil => intro a b; rfl
  | cons x xs ih =>
      intro a b
      simp only [List.foldl]
      rw [String.append_assoc, ih]

lemma join_cons (x : String) (l : List String) :
    String.join (x :: l) = x ++ String.join l := by
  show l.foldl (· ++ ·) ("" ++ x) = x ++ l.foldl (· ++ ·) ""
  rw [String.empty_append, ← String.append_empty x, foldl_append_hom,
    String.append_empty]

lemma foldl_append_eq_join {α : Type} (f : α → String) :
    ∀ (l : List α) (init : String),
      l.foldl (fun acc x => acc ++ f x) init = init ++ String.join (l.map f) := by
  intro l
  induction l with
  | nil => intro init; simp [String.join, String.append_empty]
  | cons x xs ih =>
      intro init
      simp only [List.foldl, List.map]
      rw [ih, join_cons, String.append_assoc]

lemma snd_mem_of_mem_enumFrom {α : Type} :
    ∀ {l : List α} {n : ℕ} {p : ℕ × α}, p ∈ List.enumFrom n l → p.2 ∈ l := by
  intro l
  induction l with
  | nil => intro n p h; cases h
  | cons x xs ih =>
      intro n p h
      simp only [List.enumFrom] at h
      rcases List.mem_cons.1 h with h | h
      · subst h; exact List.mem_cons_self x xs
      · exact List.mem_cons_of_mem x (ih h)

/-! ## Claim theorems -/

/-- C1: whenever the MarianMT fallback stage accepts a translation and the
S2HK converter is configured, the raw MT output is passed through the
converter before being emitted and cached; in particular, with the phrase
absent from the dictionary and the LLM stage disabled, an MT result `软件`
is emitted and cached as `軟件`. -/
theorem mt_normalizer_mandatory :
    (∀ (conv : String → String) (cache : List (String × String)) (text mtRes : String),
      mtRes ≠ "" → pyStrip mtRes ≠ "" → mtRes ≠ text →
        mtAccept (some conv) cache text mtRes
          = ((pyLower text, conv mtRes) :: cache, some (conv mtRes))) ∧
    translateEnglish (some s2hk) [] "software" none none (some "软件")
      = ([("software", "軟件")], "軟件") := by
  constructor
  · intro conv cache text mtRes h1 h2 h3
    simp [mtAccept, h1, h2, h3]
  · decide

theorem mt_normalizer_mandatory_witness :
    mtAccept (some s2hk) [] "hello" "你好"
      = ((pyLower "hello", s2hk "你好") :: [], some (s2hk "你好")) :=
  mt_normalizer_mandatory.1 s2hk [] "hello" "你好" (by decide) (by decide) (by decide)

/-- C2: the sub-second field of both timecode formatters is the truncation of
the fractional part of the seconds value (`int((seconds - int(seconds)) * scale)`,
i.e. the floor for non-negative input) with scale 1000 for the SRT millisecond
field and 100 for the ASS centisecond field — and not rounding to nearest, as
the 0.9999 s / 0.999 s evaluations show. -/
theorem subsecond_field_truncates :
    (∀ s : ℚ, 0 ≤ s →
      srtMillis s = ⌊(s - (⌊s⌋ : ℚ)) * 1000⌋ ∧
      assCentis s = ⌊(s - (⌊s⌋ : ℚ)) * 100⌋) ∧
    srtMillis (9999/10000 : ℚ) = 999 ∧ round ((9999/10000 : ℚ) * 1000) = 1000 ∧
    assCentis (999/1000 : ℚ) = 99 ∧ round ((999/1000 : ℚ) * 100) = 100 := by
  refine ⟨fun s hs => ?_, by decide, by decide, by decide, by decide⟩
  have hfrac : (0 : ℚ) ≤ s - (⌊s⌋ : ℚ) := sub_nonneg.2 (Int.floor_le s)
  constructor
  · rw [srtMillis, pyInt_eq_floor s hs,
      pyInt_eq_floor _ (mul_nonneg hfrac (by norm_num))]
  · rw [assCentis, pyInt_eq_floor s hs,
      pyInt_eq_floor _ (mul_nonneg hfrac (by norm_num))]

theorem subsecond_field_truncates_witness :
    srtMillis (3/2 : ℚ) = ⌊((3/2 : ℚ) - (⌊(3/2 : ℚ)⌋ : ℚ)) * 1000⌋ ∧
    assCentis (3/2 : ℚ) = ⌊((3/2 : ℚ) - (⌊(3/2 : ℚ)⌋ : ℚ)) * 100⌋ :=
  subsecond_field_truncates.1 (3/2) (by norm_num)

/-- C3: for the segment `{start: 1.5, end: 3.25}` the file body written by
`export_srt` is the sequence number `1`, the timecode line exactly
`00:00:01,500 --> 00:00:03,250`, the text line, and a blank separator line. -/
theorem srt_timecode_line_exact :
    exportSrtContent [⟨3/2, 13/4, "字幕"⟩]
      = "1\n" ++ "00:00:01,500 --> 00:00:03,250" ++ "\n" ++ "字幕" ++ "\n" ++ "\n"
      ∧ formatSrtTime (3/2 : ℚ) = "00:00:01,500"
      ∧ formatSrtTime (13/4 : ℚ) = "00:00:03,250" := by
  refine ⟨by decide, by decide, by decide⟩

/-- C4: for the segment `{start: 1.5, end: 3.25}` the ASS start and end
timecodes are exactly `0:00:01.50` and `0:00:03.25` (hour field unpadded,
period centisecond separator), as they appear in the `Dialogue:` line. -/
theorem ass_timecode_exact :
    formatAssTime (3/2 : ℚ) = "0:00:01.50" ∧
    formatAssTime (13/4 : ℚ) = "0:00:03.25" ∧
    assDialogueLine "Default" ⟨3/2, 13/4, "x"⟩
      = "Dialogue: 0,0:00:01.50,0:00:03.25,Default,,0,0,0,,x\n" := by
  refine ⟨by decide, by decide, ?_⟩
  simp only [assDialogueLine]
  decide

/-- C5: every export method returns `true` when the write succeeds and
catches a write error, returning `false` instead of propagating it; and the
multi-format driver attempts every requested format independently, so one
format's failure never prevents another format's attempt. -/
theorem export_error_handling :
    (∀ (write : String → String → Except String Unit) (segments : List Segment)
        (path styleName : String) (includeTimestamps : Bool)
        (serialize : FcpDoc → String) (videoDuration : Option ℚ) (fps : ℚ),
      (write path (exportSrtContent segments) = Except.ok () →
        export_srt write segments path = true) ∧
      (∀ e, write path (exportSrtContent segments) = Except.error e →
        export_srt write segments path = false) ∧
      (write path (exportAssContent segments styleName) = Except.ok () →
        export_ass write segments path styleName = true) ∧
      (∀ e, write path (exportAssContent segments styleName) = Except.error e →
        export_ass write segments path styleName = false) ∧
      (write path (exportTxtContent segments includeTimestamps) = Except.ok () →
        export_txt write segments path includeTimestamps = true) ∧
      (∀ e, write path (exportTxtContent segments includeTimestamps) = Except.error e →
        export_txt write segments path includeTimestamps = false) ∧
      (write path (serialize (buildFcpxml segments videoDuration fps)) = Except.ok () →
        export_fcpxml write serialize segments path videoDuration fps = true) ∧
      (∀ e, write path (serialize (buildFcpxml segments videoDuration fps)) = Except.error e →
        export_fcpxml write serialize segments path videoDuration fps = false)) ∧
    (∀ (write : String → String → Except String Unit) (serialize : FcpDoc → String)
        (segments : List Segment) (reqs : List ExportReq),
      exportAll write serialize segments reqs
        = reqs.map (runExport write serialize segments)) := by
  constructor
  · intro write segments path styleName includeTimestamps serialize videoDuration fps
    refine ⟨fun h => ?_, fun e h => ?_, fun h => ?_, fun e h => ?_,
      fun h => ?_, fun e h => ?_, fun h => ?_, fun e h => ?_⟩ <;>
      simp [export_srt, export_ass, export_txt, export_fcpxml, h]
  · intro write serialize segments reqs
    induction reqs with
    | nil => rfl
    | cons r rs ih => simp [exportAll, ih]

theorem export_error_handling_witness :
    export_srt (fun _ _ => Except.ok ()) [] "out.srt" = true ∧
    export_ass (fun _ _ => Except.error "disk full") [] "out.ass" "Default" = false :=
  ⟨(export_error_handling.1 (fun _ _ => Except.ok ()) [] "out.srt" "Default" true
      (fun _ => "") none 30).1 rfl,
   (export_error_handling.1 (fun _ _ => Except.error "disk full") [] "out.ass" "Default"
      true (fun _ => "") none 30).2.2.2.1 "disk full" rfl⟩

/-- C6: the ASS export writes the fixed `[Script Info]` / `[V4+ Styles]` /
`[Events]` header with one default style definition, followed by exactly one
`Dialogue: 0,<start>,<end>,<style>,,0,0,0,,<text>` line per segment in order,
with every internal newline of the text rewritten to the literal escape
`\N`. -/
theorem ass_export_structure (segments : List Segment) (styleName : String) :
    exportAssContent segments styleName
      = assHeader styleName ++ String.join (segments.map (assDialogueLine styleName)) := by
  unfold exportAssContent
  rw [foldl_append_eq_join]

/-- C7: whenever the Qwen LLM stage or the MarianMT stage accepts a
translation, the new cache entry's key is the lowercased source phrase and
the stored value is exactly the string returned to the caller. -/
theorem translation_cache_entry
    (converter : Option (String → String)) (cache : List (String × String))
    (text raw : String) (cache' : List (String × String)) (r : String) :
    (qwenAccept converter cache text raw = (cache', some r) →
      cache' = (pyLower text, r) :: cache) ∧
    (mtAccept converter cache text raw = (cache', some r) →
      cache' = (pyLower text, r) :: cache) := by
  constructor
  · intro h
    by_cases h0 : raw ≠ ""
    · by_cases h1 : stripPrefixes (pyStrip raw) ≠ "" ∧ stripPrefixes (pyStrip raw) ≠ text
      · simp only [qwenAccept] at h
        rw [if_pos h0, if_pos h1] at h
        simp only [Prod.mk.injEq, Option.some.injEq] at h
        rw [← h.1, h.2]
      · simp [qwenAccept, h0, h1] at h
    · simp [qwenAccept, h0] at h
  · intro h
    by_cases h0 : raw ≠ "" ∧ pyStrip raw ≠ "" ∧ raw ≠ text
    · simp only [mtAccept] at h
      rw [if_pos h0] at h
      simp only [Prod.mk.injEq, Option.some.injEq] at h
      rw [← h.1, h.2]
    · simp [mtAccept, h0] at h

theorem translation_cache_entry_witness :
    ([("hi", "你好")] : List (String × String))
      = (pyLower "hi", "你好") :: ([] : List (String × String)) :=
  (translation_cache_entry none [] "hi" "你好" [("hi", "你好")] "你好").1 (by decide)

/-- C8: a non-empty configured custom vocabulary yields an initial prompt
that is the fixed base Cantonese hint followed by `用戶指定詞彙：`, the custom
string, and `。`; an empty custom vocabulary yields no prompt. -/
theorem initial_prompt_construction (customPrompt : String) :
    (customPrompt ≠ "" →
      buildInitialPrompt customPrompt
        = some (basePrompt ++ "用戶指定詞彙：" ++ customPrompt ++ "。")) ∧
    buildInitialPrompt "" = none := by
  constructor
  · intro h
    simp [buildInitialPrompt, h]
  · simp [buildInitialPrompt]

theorem initial_prompt_construction_witness :
    buildInitialPrompt "陳奕迅、張學友"
      = some (basePrompt ++ "用戶指定詞彙：" ++ "陳奕迅、張學友" ++ "。") :=
  (initial_prompt_construction "陳奕迅、張學友").1 (by decide)

/-- C9: subtitle serialization is deterministic — two invocations of the same
export content builder on equal segment lists and equal parameters produce
byte-identical file content. -/
theorem export_deterministic
    (segs segs' : List Segment) (style style' : String) (vd vd' : Option ℚ)
    (fps fps' : ℚ) (serialize : FcpDoc → String) :
    segs = segs' →
      (exportSrtContent segs).toUTF8 = (exportSrtContent segs').toUTF8 ∧
      (style = style' →
        (exportAssContent segs style).toUTF8
          = (exportAssContent segs' style').toUTF8) ∧
      (vd = vd' → fps = fps' →
        (serialize (buildFcpxml segs vd fps)).toUTF8
          = (serialize (buildFcpxml segs' vd' fps')).toUTF8) := by
  intro hsegs
  subst hsegs
  refine ⟨rfl, fun hstyle => by rw [hstyle], fun hvd hfps => by rw [hvd, hfps]⟩

theorem export_deterministic_witness :
    (exportSrtContent [⟨0, 1, "測試"⟩]).toUTF8
      = (exportSrtContent [⟨0, 1, "測試"⟩]).toUTF8 :=
  (export_deterministic [⟨0, 1, "測試"⟩] [⟨0, 1, "測試"⟩] "Default" "Default"
    none none 30 30 (fun _ => "") rfl).1

/-- C10: every `title` element emitted into the FCPXML spine has a duration of
at least one frame (`max(1, int((end - start) * fps))`), so even a
sub-frame-length or zero-duration segment yields a one-frame title, and its
offset is `int(start * fps)` frames over `int(fps)`. -/
theorem fcpxml_title_min_duration :
    (∀ (segments : List Segment) (fps : ℚ) (t : FcpTitle),
      t ∈ fcpTitles segments fps →
      ∃ seg, seg ∈ segments ∧
        1 ≤ titleDurationFrames seg fps ∧
        t.duration = toString (titleDurationFrames seg fps) ++ "/"
          ++ toString (pyInt fps) ++ "s" ∧
        t.offset = toString (titleStartFrames seg fps) ++ "/"
          ++ toString (pyInt fps) ++ "s") ∧
    titleDurationFrames ⟨2, 2, "x"⟩ 30 = 1 ∧
    titleDurationFrames ⟨0, 1/100, "y"⟩ 30 = 1 := by
  refine ⟨?_, by decide, by decide⟩
  intro segments fps t ht
  unfold fcpTitles at ht
  obtain ⟨p, hp, rfl⟩ := List.mem_map.1 ht
  exact ⟨p.2, snd_mem_of_mem_enumFrom hp, le_max_left 1 _, rfl, rfl⟩

theorem fcpxml_title_min_duration_witness :
    ∃ seg, seg ∈ [(⟨2, 2, "x"⟩ : Segment)] ∧ 1 ≤ titleDurationFrames seg 30 ∧
      (⟨"r2", "字幕 1", "60/30s", "1/30s", "3600s", "ts1", "x"⟩ : FcpTitle).duration
        = toString (titleDurationFrames seg 30) ++ "/" ++ toString (pyInt 30) ++ "s" ∧
      (⟨"r2", "字幕 1", "60/30s", "1/30s", "3600s", "ts1", "x"⟩ : FcpTitle).offset
        = toString (titleStartFrames seg 30) ++ "/" ++ toString (pyInt 30) ++ "s" :=
  fcpxml_title_min_duration.1 [⟨2, 2, "x"⟩] 30
    ⟨"r2", "字幕 1", "60/30s", "1/30s", "3600s", "ts1", "x"⟩ (by decide)

end CantoBeats
